import Mathlib

/-!
Shallow embedding of the Stackr backend's Lot Ledger & Allocation Engine
(`src/backend/app/crud.py`, `models.py`, `schemas.py`, `main.py`).

Quantities are modelled as exact rationals (the source stores them as
floating-point columns; none of the verified properties depends on
rounding).  Database state is a record of the four tables plus the
auto-increment counters.  Each CRUD function is embedded as a Lean
function from the persisted state to `Except` of a typed error and the
new persisted state: the source commits its session only on the success
path (`db.commit()` is reached only when no `HTTPException` was raised,
and the per-request session opened by `get_db` is closed — hence rolled
back — otherwise), so an error outcome leaves the persisted state
unchanged, which the `Except` shape encodes directly.
-/

/-- Purchase type enumeration (`schemas.PurchaseType`). -/
inductive PurchaseType where
  | domestic
  | imported
deriving DecidableEq, Repr

/-- Row of the `items` table (`models.Item`); the timestamp column is
irrelevant to the verified properties and omitted. -/
structure Item where
  id : Nat
  name : String
deriving DecidableEq, Repr

/-- Row of the `purchases` table (`models.Purchase`); the
`purchase_date` timestamp is omitted. -/
structure Purchase where
  id : Nat
  item_id : Nat
  quantity : ℚ
  purchase_type : PurchaseType
  supplier : String
  price_per_unit : ℚ
  created_by : String
deriving DecidableEq, Repr

/-- Row of the `lots` table (`models.Lot`); the optional dates are kept
as opaque naturals since only their presence is ever copied around. -/
structure Lot where
  id : Nat
  purchase_id : Nat
  lot_number : String
  manufacturing_date : Option Nat
  expiry_date : Option Nat
  remaining_quantity : ℚ
deriving DecidableEq, Repr

/-- Row of the `inventory_records` table (`models.InventoryRecord`);
the timestamp is omitted, insertion order stands in for it. -/
structure InventoryRecord where
  id : Nat
  item_id : Nat
  lot_id : Option Nat
  quantity : ℚ
  updated_by : String
deriving DecidableEq, Repr

/-- Request body for purchase creation (`schemas.PurchaseCreate`). -/
structure PurchaseCreate where
  item_id : Nat
  quantity : ℚ
  purchase_type : PurchaseType
  supplier : String
  price_per_unit : ℚ
  created_by : String
  lot_number : Option String
  manufacturing_date : Option Nat
  expiry_date : Option Nat
deriving DecidableEq, Repr

/-- Request body for inventory-record creation
(`schemas.InventoryRecordCreate`). -/
structure InventoryRecordCreate where
  item_id : Nat
  quantity : ℚ
  updated_by : String
  lot_id : Option Nat
deriving DecidableEq, Repr

/-- Persisted database state: the four tables in insertion order,
plus the auto-increment counters assigning fresh primary keys. -/
structure DB where
  items : List Item
  purchases : List Purchase
  lots : List Lot
  records : List InventoryRecord
  nextPurchaseId : Nat
  nextLotId : Nat
  nextRecordId : Nat
deriving DecidableEq, Repr

/-- Typed business errors of the backend (`HTTPException` payloads in
the source).  `internalError` models the unhandled Python `NameError`
raised at crud.py line 174 when `create_inventory_record_with_lot` is
reached with no lot reference and a nonnegative quantity (neither
branch assigning `lots_used` runs, and the name is then read). -/
inductive ApiError where
  | itemNotFound
  | lotNotFound
  | insufficientLotQuantity (available : ℚ)
  | insufficientAggregateQuantity (missing : ℚ)
  | internalError
deriving DecidableEq, Repr

/-- Python truthiness of an `Optional[str]` value: `None` and the empty
string are falsy (used by `if purchase.lot_number` and
`purchase.lot_number or ...` in `create_purchase`). -/
def pythonStrTruthy : Option String → Bool
  | none => false
  | some s => !(s == "")

/-- Python truthiness of an `Optional[int]` value: `None` and `0` are
falsy (used by `if record.lot_id` in
`create_inventory_record_with_lot`). -/
def pythonIntTruthy : Option Nat → Bool
  | none => false
  | some n => !(n == 0)

/-- Embedding of `crud.get_item`: first row of `items` with the given
primary key. -/
def get_item (db : DB) (item_id : Nat) : Option Item :=
  db.items.find? (fun i => i.id == item_id)

/-- The SQL join condition of `crud.get_available_lots`: the lot's
purchase row exists and references the given item. -/
def lotBelongsToItem (db : DB) (item_id : Nat) (l : Lot) : Bool :=
  match db.purchases.find? (fun p => p.id == l.purchase_id) with
  | some p => p.item_id == item_id
  | none => false

/-- Order relation used by `ORDER BY lots.id` in
`crud.get_available_lots`. -/
def lotIdLe (a b : Lot) : Prop :=
  a.id ≤ b.id

instance : DecidableRel lotIdLe := fun a b => Nat.decLe a.id b.id

instance : IsTotal Lot lotIdLe := ⟨fun a b => Nat.le_total a.id b.id⟩

instance : IsTrans Lot lotIdLe := ⟨fun _ _ _ hab hbc => Nat.le_trans hab hbc⟩

/-- Embedding of `crud.get_available_lots`: lots joined to purchases of
the given item, with nonpositive remainders filtered out when
`exclude_empty` holds, ordered by lot id ascending. -/
def get_available_lots (db : DB) (item_id : Nat) (exclude_empty : Bool) : List Lot :=
  let joined := db.lots.filter (lotBelongsToItem db item_id)
  let filtered := if exclude_empty then joined.filter (fun l => decide (0 < l.remaining_quantity)) else joined
  List.insertionSort lotIdLe filtered

/-- Embedding of the `GET /items/.../lots` handler
(`main.read_item_lots`): it forwards to `get_available_lots` with no
item-existence check of its own. -/
def read_item_lots (db : DB) (item_id : Nat) (exclude_empty : Bool) : List Lot :=
  get_available_lots db item_id exclude_empty

/-- Embedding of `crud.create_purchase` (crud.py lines 53-86): verify
the item, insert the purchase, and when the purchase type is imported
or the supplied lot number is truthy also insert a lot seeded with the
purchase quantity, the lot number defaulting to `"LOT-" ++ id`. -/
def create_purchase (db : DB) (purchase : PurchaseCreate) : Except ApiError (DB × Purchase) :=
  match get_item db purchase.item_id with
  | none => Except.error ApiError.itemNotFound
  | some _ =>
    let db_purchase : Purchase :=
      { id := db.nextPurchaseId
        item_id := purchase.item_id
        quantity := purchase.quantity
        purchase_type := purchase.purchase_type
        supplier := purchase.supplier
        price_per_unit := purchase.price_per_unit
        created_by := purchase.created_by }
    let db1 : DB := { db with purchases := db.purchases ++ [db_purchase], nextPurchaseId := db.nextPurchaseId + 1 }
    if purchase.purchase_type = PurchaseType.imported ∨ pythonStrTruthy purchase.lot_number then
      let lot_number := if pythonStrTruthy purchase.lot_number then purchase.lot_number.getD "" else "LOT-" ++ toString db_purchase.id
      let db_lot : Lot :=
        { id := db1.nextLotId
          purchase_id := db_purchase.id
          lot_number := lot_number
          manufacturing_date := purchase.manufacturing_date
          expiry_date := purchase.expiry_date
          remaining_quantity := purchase.quantity }
      Except.ok ({ db1 with lots := db1.lots ++ [db_lot], nextLotId := db1.nextLotId + 1 }, db_purchase)
    else
      Except.ok (db1, db_purchase)

/-- Embedding of `crud.create_inventory_record` (crud.py lines 41-51):
verify the item, then append the record exactly as posted — the
`lot_id` field is stored verbatim and no lot is read or written. -/
def create_inventory_record (db : DB) (record : InventoryRecordCreate) : Except ApiError (DB × InventoryRecord) :=
  match get_item db record.item_id with
  | none => Except.error ApiError.itemNotFound
  | some _ =>
    let db_record : InventoryRecord :=
      { id := db.nextRecordId
        item_id := record.item_id
        lot_id := record.lot_id
        quantity := record.quantity
        updated_by := record.updated_by }
    Except.ok ({ db with records := db.records ++ [db_record], nextRecordId := db.nextRecordId + 1 }, db_record)

/-- Embedding of the `POST /inventory/` handler
(`main.update_inventory`, main.py lines 60-68): it calls
`crud.create_inventory_record`, not the lot-aware variant. -/
def update_inventory (db : DB) (record : InventoryRecordCreate) : Except ApiError (DB × InventoryRecord) :=
  create_inventory_record db record

/-- Assignment `lot.remaining_quantity = v` on the row with the given
primary key. -/
def setLotRemaining (lots : List Lot) (lotId : Nat) (v : ℚ) : List Lot :=
  lots.map (fun l => if l.id = lotId then { l with remaining_quantity := v } else l)

/-- Embedding of the allocation loop of
`create_inventory_record_with_lot` (crud.py lines 154-161): walk the
available lots, and while need remains take
`min lot.remaining_quantity need` from each lot, recording the
(lot id, take) pairs in visit order.  Each lot object is visited at
most once, so reading its enumeration-time `remaining_quantity` agrees
with the in-place mutation of the source.  Returns the mutated lots
table, the need left over, and the recorded pairs. -/
def allocWalk (dblots : List Lot) (avail : List Lot) (need : ℚ) : List Lot × ℚ × List (Nat × ℚ) :=
  match avail with
  | [] => (dblots, need, [])
  | lot :: rest =>
    if need ≤ 0 then (dblots, need, [])
    else
      let take := min lot.remaining_quantity need
      let res := allocWalk (setLotRemaining dblots lot.id (lot.remaining_quantity - take)) rest (need - take)
      (res.1, res.2.1, (lot.id, take) :: res.2.2)

/-- Embedding of `crud.create_inventory_record_with_lot` (crud.py
lines 121-180): verify the item; with a truthy explicit lot id, look
the lot up by id alone (no membership check against the item), fail
with the available amount when it cannot cover `|quantity|`, otherwise
deduct `|quantity|` from it; with no truthy lot id and a negative
quantity, run the FIFO walk over `get_available_lots` and fail with the
missing amount when need survives the walk; finally append one record
whose `lot_id` is the posted one when truthy, else the first walked
lot's id when the walk recorded any pair, else `none`. -/
def create_inventory_record_with_lot (db : DB) (record : InventoryRecordCreate) : Except ApiError (DB × InventoryRecord) :=
  match get_item db record.item_id with
  | none => Except.error ApiError.itemNotFound
  | some _ =>
    if pythonIntTruthy record.lot_id then
      match db.lots.find? (fun l => l.id == record.lot_id.getD 0) with
      | none => Except.error ApiError.lotNotFound
      | some lot =>
        if lot.remaining_quantity < |record.quantity| then
          Except.error (ApiError.insufficientLotQuantity lot.remaining_quantity)
        else
          let db_record : InventoryRecord :=
            { id := db.nextRecordId
              item_id := record.item_id
              lot_id := record.lot_id
              quantity := record.quantity
              updated_by := record.updated_by }
          Except.ok ({ db with
            lots := setLotRemaining db.lots lot.id (lot.remaining_quantity - |record.quantity|),
            records := db.records ++ [db_record],
            nextRecordId := db.nextRecordId + 1 }, db_record)
    else if record.quantity < 0 then
      let walk := allocWalk db.lots (get_available_lots db record.item_id true) |record.quantity|
      if 0 < walk.2.1 then
        Except.error (ApiError.insufficientAggregateQuantity walk.2.1)
      else
        let db_record : InventoryRecord :=
          { id := db.nextRecordId
            item_id := record.item_id
            lot_id := walk.2.2.head?.map Prod.fst
            quantity := record.quantity
            updated_by := record.updated_by }
        Except.ok ({ db with
          lots := walk.1,
          records := db.records ++ [db_record],
          nextRecordId := db.nextRecordId + 1 }, db_record)
    else
      Except.error ApiError.internalError

/-- Persisted state after an attempted lot-aware inventory operation:
the new state on success, the old one on failure (the source raises
before `db.commit()`, so the request's session is rolled back when it
is closed). -/
def persistedDB (db : DB) (record : InventoryRecordCreate) : DB :=
  match create_inventory_record_with_lot db record with
  | Except.ok res => res.1
  | Except.error _ => db

/-- Remaining quantities of all lots in the state an inventory
operation produced, when it succeeded. -/
def resultRemainders (e : Except ApiError (DB × InventoryRecord)) : Option (List ℚ) :=
  match e with
  | Except.ok res => some (res.1.lots.map (fun l => l.remaining_quantity))
  | Except.error _ => none

/-- Record an inventory operation returned, when it succeeded. -/
def resultRecord (e : Except ApiError (DB × InventoryRecord)) : Option InventoryRecord :=
  match e with
  | Except.ok res => some res.2
  | Except.error _ => none

/-- Remaining quantities of all lots in the state a purchase operation
produced, when it succeeded. -/
def purchaseLots (e : Except ApiError (DB × Purchase)) : Option (List ℚ) :=
  match e with
  | Except.ok res => some (res.1.lots.map (fun l => l.remaining_quantity))
  | Except.error _ => none

/-- Concrete state of spec section 8's FIFO scenario: one item owning
lots L1(id 1, remaining 5) and L2(id 2, remaining 10). -/
def twoLotDB : DB :=
  { items := [{ id := 1, name := "widget" }]
    purchases :=
      [ { id := 1, item_id := 1, quantity := 5, purchase_type := PurchaseType.imported, supplier := "s", price_per_unit := 1, created_by := "u" }
      , { id := 2, item_id := 1, quantity := 10, purchase_type := PurchaseType.imported, supplier := "s", price_per_unit := 1, created_by := "u" } ]
    lots :=
      [ { id := 1, purchase_id := 1, lot_number := "L1", manufacturing_date := none, expiry_date := none, remaining_quantity := 5 }
      , { id := 2, purchase_id := 2, lot_number := "L2", manufacturing_date := none, expiry_date := none, remaining_quantity := 10 } ]
    records := []
    nextPurchaseId := 3
    nextLotId := 3
    nextRecordId := 1 }

/-- Withdrawal request of `q` units of item 1 with no explicit lot. -/
def wdraw (q : ℚ) : InventoryRecordCreate :=
  { item_id := 1, quantity := -q, updated_by := "u", lot_id := none }




/-- Rows a `setLotRemaining` write leaves untouched are still present. -/
theorem setLotRemaining_mem_of_ne {lots : List Lot} {i : Nat} {v : ℚ} {l : Lot}
    (hl : l ∈ lots) (hne : l.id ≠ i) : l ∈ setLotRemaining lots i v := by
  have : (if l.id = i then { l with remaining_quantity := v } else l) = l := if_neg hne
  simpa [setLotRemaining, this] using List.mem_map_of_mem (fun x => if x.id = i then { x with remaining_quantity := v } else x) hl

/-- A `setLotRemaining` write of a nonnegative value preserves
nonnegativity of every remaining quantity. -/
theorem setLotRemaining_nonneg {lots : List Lot} {i : Nat} {v : ℚ}
    (h : ∀ l ∈ lots, 0 ≤ l.remaining_quantity) (hv : 0 ≤ v) :
    ∀ l ∈ setLotRemaining lots i v, 0 ≤ l.remaining_quantity := by
  intro l hl
  rcases List.mem_map.mp hl with ⟨x, hx, hxl⟩
  by_cases hxi : x.id = i
  · simp only [hxi, if_pos rfl] at hxl
    subst hxl
    exact hv
  · simp only [if_neg hxi] at hxl
    subst hxl
    exact h x hx

/-- The need left over by the allocation walk never becomes negative. -/
theorem allocWalk_need_nonneg (avail : List Lot) :
    ∀ (dblots : List Lot) (need : ℚ), 0 ≤ need → 0 ≤ (allocWalk dblots avail need).2.1 := by
  induction avail with
  | nil => intro dblots need h; simpa [allocWalk] using h
  | cons lot rest ih =>
    intro dblots need h
    by_cases hle : need ≤ 0
    · simpa [allocWalk, hle] using h
    · have : 0 ≤ need - min lot.remaining_quantity need := sub_nonneg.mpr (min_le_right _ _)
      simpa [allocWalk, hle] using ih _ _ this

/-- Accounting identity of the allocation walk: the need left over plus
the sum of all recorded takes equals the need the walk started with. -/
theorem allocWalk_sum (avail : List Lot) :
    ∀ (dblots : List Lot) (need : ℚ),
      (allocWalk dblots avail need).2.1 + ((allocWalk dblots avail need).2.2.map Prod.snd).sum = need := by
  induction avail with
  | nil => intro dblots need; simp [allocWalk]
  | cons lot rest ih =>
    intro dblots need
    by_cases hle : need ≤ 0
    · simp [allocWalk, hle]
    · have h := ih (setLotRemaining dblots lot.id (lot.remaining_quantity - min lot.remaining_quantity need)) (need - min lot.remaining_quantity need)
      simp only [allocWalk, hle, if_false]
      simp only [List.map_cons, List.sum_cons]
      linarith

/-- The need left over by the walk is the starting need minus the total
remaining quantity of the walked lots, clamped at zero. -/
theorem allocWalk_need_eq (avail : List Lot) :
    ∀ (dblots : List Lot) (need : ℚ), (∀ l ∈ avail, 0 ≤ l.remaining_quantity) → 0 ≤ need →
      (allocWalk dblots avail need).2.1 = max (need - (avail.map (fun l => l.remaining_quantity)).sum) 0 := by
  induction avail with
  | nil => intro dblots need _ hneed; simp [allocWalk, max_eq_left hneed]
  | cons lot rest ih =>
    intro dblots need hpos hneed
    have hlot : 0 ≤ lot.remaining_quantity := hpos lot (List.mem_cons_self _ _)
    have hrest : ∀ l ∈ rest, 0 ≤ l.remaining_quantity := fun l hl => hpos l (List.mem_cons_of_mem _ hl)
    have hrestsum : 0 ≤ (rest.map (fun l => l.remaining_quantity)).sum := by
      apply List.sum_nonneg
      intro x hx
      rcases List.mem_map.mp hx with ⟨l, hl, rfl⟩
      exact hrest l hl
    by_cases hle : need ≤ 0
    · have hz : need = 0 := le_antisymm hle hneed
      subst hz
      have : (0 : ℚ) - (lot.remaining_quantity + (rest.map (fun l => l.remaining_quantity)).sum) ≤ 0 := by linarith
      simp only [allocWalk, if_pos hle, List.map_cons, List.sum_cons]
      exact (max_eq_right this).symm
    · have hneed2 : 0 ≤ need - min lot.remaining_quantity need := sub_nonneg.mpr (min_le_right _ _)
      have h := ih (setLotRemaining dblots lot.id (lot.remaining_quantity - min lot.remaining_quantity need)) (need - min lot.remaining_quantity need) hrest hneed2
      simp only [allocWalk, hle, if_false]
      rw [h]
      rcases le_total lot.remaining_quantity need with hmn | hmn
      · rw [min_eq_left hmn]
        congr 1
        simp only [List.map_cons, List.sum_cons]
        ring
      · rw [min_eq_right hmn]
        have h1 : need - need - (rest.map (fun l => l.remaining_quantity)).sum ≤ 0 := by linarith
        have h2 : need - (lot.remaining_quantity + (rest.map (fun l => l.remaining_quantity)).sum) ≤ 0 := by linarith
        simp only [List.map_cons, List.sum_cons]
        rw [max_eq_right h1, max_eq_right h2]

/-- The allocation walk writes only differences of a lot's own
remaining quantity and a take bounded by it, so it preserves
nonnegativity of the whole lots table. -/
theorem allocWalk_lots_nonneg (avail : List Lot) :
    ∀ (dblots : List Lot) (need : ℚ), (∀ l ∈ dblots, 0 ≤ l.remaining_quantity) →
      ∀ l ∈ (allocWalk dblots avail need).1, 0 ≤ l.remaining_quantity := by
  induction avail with
  | nil => intro dblots need h; simpa [allocWalk] using h
  | cons lot rest ih =>
    intro dblots need h
    by_cases hle : need ≤ 0
    · simpa [allocWalk, hle] using h
    · have hv : 0 ≤ lot.remaining_quantity - min lot.remaining_quantity need :=
        sub_nonneg.mpr (min_le_left _ _)
      have h1 := setLotRemaining_nonneg h hv (i := lot.id)
      simpa [allocWalk, hle] using ih _ (need - min lot.remaining_quantity need) h1

/-- Membership in `get_available_lots` with `exclude_empty` is exactly
membership in the lots table, the join to the item, and a positive
remaining quantity. -/
theorem mem_get_available_lots {db : DB} {item_id : Nat} {l : Lot} :
    l ∈ get_available_lots db item_id true ↔
      l ∈ db.lots ∧ lotBelongsToItem db item_id l = true ∧ 0 < l.remaining_quantity := by
  unfold get_available_lots
  rw [(List.perm_insertionSort lotIdLe _).mem_iff]
  simp only [if_true, List.mem_filter, decide_eq_true_eq]
  tauto

/-- The available-lots enumeration is sorted by lot id ascending. -/
theorem sorted_get_available_lots (db : DB) (item_id : Nat) (b : Bool) :
    List.Sorted lotIdLe (get_available_lots db item_id b) :=
  List.sorted_insertionSort lotIdLe _

/-- Inversion of the automatic-allocation branch: a successful call
with no truthy lot id and a negative quantity means the walk covered
the need, the new state carries the walked lots table and one appended
record, and that record's fields are the posted quantity and the first
walked lot. -/
theorem auto_alloc_ok {db : DB} {r : InventoryRecordCreate} {db' : DB} {rec : InventoryRecord}
    (htr : pythonIntTruthy r.lot_id = false) (hneg : r.quantity < 0)
    (hok : create_inventory_record_with_lot db r = Except.ok (db', rec)) :
    ¬ 0 < (allocWalk db.lots (get_available_lots db r.item_id true) |r.quantity|).2.1
    ∧ rec = { id := db.nextRecordId, item_id := r.item_id,
              lot_id := (allocWalk db.lots (get_available_lots db r.item_id true) |r.quantity|).2.2.head?.map Prod.fst,
              quantity := r.quantity, updated_by := r.updated_by }
    ∧ db' = { db with
        lots := (allocWalk db.lots (get_available_lots db r.item_id true) |r.quantity|).1,
        records := db.records ++ [rec],
        nextRecordId := db.nextRecordId + 1 } := by
  unfold create_inventory_record_with_lot at hok
  cases hgi : get_item db r.item_id with
  | none => rw [hgi] at hok; cases hok
  | some it =>
    rw [hgi] at hok
    rw [htr] at hok
    simp only [Bool.false_eq_true, if_false, if_pos hneg] at hok
    by_cases hw : 0 < (allocWalk db.lots (get_available_lots db r.item_id true) |r.quantity|).2.1
    · rw [if_pos hw] at hok; cases hok
    · rw [if_neg hw] at hok
      simp only [Except.ok.injEq, Prod.mk.injEq] at hok
      obtain ⟨hdb, hrec⟩ := hok
      subst hrec
      exact ⟨hw, rfl, hdb.symm⟩

/-- C2: for every successful auto-allocated withdrawal (no truthy lot
reference, negative quantity), the sum of the per-lot takes recorded by
the allocation walk equals the absolute withdrawn quantity, exactly one
journal entry is appended, and its quantity is the signed delta while
its lot reference is the first lot the walk consumed. -/
theorem c2_conservation (db : DB) (r : InventoryRecordCreate) (db' : DB) (rec : InventoryRecord)
    (htr : pythonIntTruthy r.lot_id = false) (hneg : r.quantity < 0)
    (hok : create_inventory_record_with_lot db r = Except.ok (db', rec)) :
    ((allocWalk db.lots (get_available_lots db r.item_id true) |r.quantity|).2.2.map Prod.snd).sum = |r.quantity|
    ∧ db'.records = db.records ++ [rec]
    ∧ rec.quantity = r.quantity
    ∧ rec.lot_id = (allocWalk db.lots (get_available_lots db r.item_id true) |r.quantity|).2.2.head?.map Prod.fst := by
  obtain ⟨hw, hrec, hdb⟩ := auto_alloc_ok htr hneg hok
  have h0 : 0 ≤ (allocWalk db.lots (get_available_lots db r.item_id true) |r.quantity|).2.1 :=
    allocWalk_need_nonneg _ _ _ (abs_nonneg _)
  have hz : (allocWalk db.lots (get_available_lots db r.item_id true) |r.quantity|).2.1 = 0 :=
    le_antisymm (not_lt.mp hw) h0
  have hsum := allocWalk_sum (get_available_lots db r.item_id true) db.lots |r.quantity|
  rw [hz, zero_add] at hsum
  refine ⟨hsum, ?_, ?_, ?_⟩
  · rw [hdb]
  · rw [hrec]
  · rw [hrec]

/-- State produced by withdrawing 8 from `twoLotDB` with no explicit
lot: L1 drained to 0, L2 at 7, one record appended. -/
def c2WitnessDB : DB :=
  { items := [{ id := 1, name := "widget" }]
    purchases :=
      [ { id := 1, item_id := 1, quantity := 5, purchase_type := PurchaseType.imported, supplier := "s", price_per_unit := 1, created_by := "u" }
      , { id := 2, item_id := 1, quantity := 10, purchase_type := PurchaseType.imported, supplier := "s", price_per_unit := 1, created_by := "u" } ]
    lots :=
      [ { id := 1, purchase_id := 1, lot_number := "L1", manufacturing_date := none, expiry_date := none, remaining_quantity := 0 }
      , { id := 2, purchase_id := 2, lot_number := "L2", manufacturing_date := none, expiry_date := none, remaining_quantity := 7 } ]
    records := [{ id := 1, item_id := 1, lot_id := some 1, quantity := -8, updated_by := "u" }]
    nextPurchaseId := 3
    nextLotId := 3
    nextRecordId := 2 }

/-- Record appended by withdrawing 8 from `twoLotDB`. -/
def c2WitnessRec : InventoryRecord :=
  { id := 1, item_id := 1, lot_id := some 1, quantity := -8, updated_by := "u" }

/-- Witness for C2 at the concrete two-lot withdrawal of 8. -/
theorem c2_conservation_witness :
    ((allocWalk twoLotDB.lots (get_available_lots twoLotDB (wdraw 8).item_id true) |(wdraw 8).quantity|).2.2.map Prod.snd).sum = |(wdraw 8).quantity|
    ∧ c2WitnessDB.records = twoLotDB.records ++ [c2WitnessRec]
    ∧ c2WitnessRec.quantity = (wdraw 8).quantity
    ∧ c2WitnessRec.lot_id = (allocWalk twoLotDB.lots (get_available_lots twoLotDB (wdraw 8).item_id true) |(wdraw 8).quantity|).2.2.head?.map Prod.fst :=
  c2_conservation twoLotDB (wdraw 8) c2WitnessDB c2WitnessRec
    (by norm_num [wdraw, pythonIntTruthy])
    (by norm_num [wdraw])
    (by norm_num [create_inventory_record_with_lot, get_item, get_available_lots, lotBelongsToItem,
      lotIdLe, allocWalk, setLotRemaining, twoLotDB, wdraw, pythonIntTruthy, c2WitnessDB,
      c2WitnessRec, List.insertionSort, List.orderedInsert])

/-- C1: with no explicit lot and a negative delta the walk consumes the
item's positive-remainder lots in ascending lot-id order, taking
`min remaining need` from each and stopping once the need is met: on
the two-lot state, withdrawing any `w ≤ 5` touches only L1 (L2 stays at
10), withdrawing 8 drains L1 to 0 and leaves L2 at 7, and in general
the enumeration the walk visits is id-sorted with positive remainders. -/
theorem c1_fifo_order (w : ℚ) (hw : 0 < w) (hw5 : w ≤ 5) :
    (resultRemainders (create_inventory_record_with_lot twoLotDB (wdraw w)) = some [5 - w, 10]
     ∧ (resultRecord (create_inventory_record_with_lot twoLotDB (wdraw w))).map (fun rec => rec.lot_id) = some (some 1))
    ∧ resultRemainders (create_inventory_record_with_lot twoLotDB (wdraw 8)) = some [0, 7]
    ∧ (resultRecord (create_inventory_record_with_lot twoLotDB (wdraw 8))).map (fun rec => rec.lot_id) = some (some 1)
    ∧ (∀ (db : DB) (i : Nat), List.Sorted lotIdLe (get_available_lots db i true)
        ∧ ∀ l ∈ get_available_lots db i true, 0 < l.remaining_quantity) := by
  have hneg : -w < 0 := neg_lt_zero.mpr hw
  have hwle : ¬(w ≤ 0) := not_le.mpr hw
  have habs : |(-w)| = w := by rw [abs_neg, abs_of_pos hw]
  have hmin : min (5:ℚ) w = w := min_eq_right hw5
  refine ⟨?_, ?_, ?_, ?_⟩
  · constructor
    · norm_num [create_inventory_record_with_lot, get_item, get_available_lots, lotBelongsToItem,
        lotIdLe, allocWalk, setLotRemaining, resultRemainders, twoLotDB, wdraw, pythonIntTruthy,
        List.insertionSort, List.orderedInsert, hneg, hwle, habs, hmin, sub_self]
    · norm_num [create_inventory_record_with_lot, get_item, get_available_lots, lotBelongsToItem,
        lotIdLe, allocWalk, setLotRemaining, resultRecord, twoLotDB, wdraw, pythonIntTruthy,
        List.insertionSort, List.orderedInsert, hneg, hwle, habs, hmin, sub_self]
  · norm_num [create_inventory_record_with_lot, get_item, get_available_lots, lotBelongsToItem,
      lotIdLe, allocWalk, setLotRemaining, resultRemainders, twoLotDB, wdraw, pythonIntTruthy,
      List.insertionSort, List.orderedInsert]
  · norm_num [create_inventory_record_with_lot, get_item, get_available_lots, lotBelongsToItem,
      lotIdLe, allocWalk, setLotRemaining, resultRecord, twoLotDB, wdraw, pythonIntTruthy,
      List.insertionSort, List.orderedInsert]
  · intro db i
    exact ⟨sorted_get_available_lots db i true, fun l hl => (mem_get_available_lots.mp hl).2.2⟩

/-- Witness for C1 at `w = 3`. -/
theorem c1_fifo_order_witness :
    ((resultRemainders (create_inventory_record_with_lot twoLotDB (wdraw 3)) = some [5 - 3, 10]
      ∧ (resultRecord (create_inventory_record_with_lot twoLotDB (wdraw 3))).map (fun rec => rec.lot_id) = some (some 1))
     ∧ resultRemainders (create_inventory_record_with_lot twoLotDB (wdraw 8)) = some [0, 7]
     ∧ (resultRecord (create_inventory_record_with_lot twoLotDB (wdraw 8))).map (fun rec => rec.lot_id) = some (some 1)
     ∧ (∀ (db : DB) (i : Nat), List.Sorted lotIdLe (get_available_lots db i true)
         ∧ ∀ l ∈ get_available_lots db i true, 0 < l.remaining_quantity)) :=
  c1_fifo_order 3 (by norm_num) (by norm_num)

/-- C3: an auto-allocated withdrawal larger than the total remaining
quantity of the item's available lots fails with
`insufficientAggregateQuantity` carrying the exact shortfall, and the
persisted state — lots table included — is the one before the call. -/
theorem c3_insufficient_aggregate (db : DB) (r : InventoryRecordCreate)
    (htr : pythonIntTruthy r.lot_id = false) (hneg : r.quantity < 0)
    (hit : (get_item db r.item_id).isSome = true)
    (hshort : ((get_available_lots db r.item_id true).map (fun l => l.remaining_quantity)).sum < |r.quantity|) :
    create_inventory_record_with_lot db r
      = Except.error (ApiError.insufficientAggregateQuantity
          (|r.quantity| - ((get_available_lots db r.item_id true).map (fun l => l.remaining_quantity)).sum))
    ∧ persistedDB db r = db
    ∧ (persistedDB db r).lots = db.lots := by
  have hpos : ∀ l ∈ get_available_lots db r.item_id true, 0 ≤ l.remaining_quantity :=
    fun l hl => le_of_lt (mem_get_available_lots.mp hl).2.2
  have hneed := allocWalk_need_eq (get_available_lots db r.item_id true) db.lots |r.quantity| hpos (abs_nonneg _)
  have hgap : (0:ℚ) ≤ |r.quantity| - ((get_available_lots db r.item_id true).map (fun l => l.remaining_quantity)).sum :=
    le_of_lt (sub_pos.mpr hshort)
  rw [max_eq_left hgap] at hneed
  have hlt : 0 < (allocWalk db.lots (get_available_lots db r.item_id true) |r.quantity|).2.1 := by
    rw [hneed]; exact sub_pos.mpr hshort
  obtain ⟨it, hgi⟩ := Option.isSome_iff_exists.mp hit
  have herr : create_inventory_record_with_lot db r
      = Except.error (ApiError.insufficientAggregateQuantity
          (|r.quantity| - ((get_available_lots db r.item_id true).map (fun l => l.remaining_quantity)).sum)) := by
    unfold create_inventory_record_with_lot
    rw [hgi, htr]
    simp only [Bool.false_eq_true, if_false, if_pos hneg, hneed]
    rw [if_pos (sub_pos.mpr hshort)]
  refine ⟨herr, ?_, ?_⟩
  · unfold persistedDB
    rw [herr]
  · unfold persistedDB
    rw [herr]

/-- Witness for C3: withdrawing 20 against the 15 available across the
two lots reports a shortfall of 5 and changes nothing. -/
theorem c3_insufficient_aggregate_witness :
    create_inventory_record_with_lot twoLotDB (wdraw 20)
      = Except.error (ApiError.insufficientAggregateQuantity
          (|(wdraw 20).quantity| - ((get_available_lots twoLotDB (wdraw 20).item_id true).map (fun l => l.remaining_quantity)).sum))
    ∧ persistedDB twoLotDB (wdraw 20) = twoLotDB
    ∧ (persistedDB twoLotDB (wdraw 20)).lots = twoLotDB.lots :=
  c3_insufficient_aggregate twoLotDB (wdraw 20)
    (by norm_num [wdraw, pythonIntTruthy])
    (by norm_num [wdraw])
    (by norm_num [get_item, twoLotDB, wdraw])
    (by norm_num [get_available_lots, lotBelongsToItem, lotIdLe, twoLotDB, wdraw,
      List.insertionSort, List.orderedInsert])

/-- C4: the `POST /inventory/` handler routes through
`create_inventory_record`, which appends the journal entry with no lot
interaction at all: withdrawing 8 from the two-lot state through the
exposed operation leaves both lots untouched and stores a null lot
reference, while the allocation engine of crud.py (reached by no
endpoint) would have drained L1 and left L2 at 7. -/
theorem c4_endpoint_bypasses_allocation :
    resultRemainders (update_inventory twoLotDB (wdraw 8)) = some [5, 10]
    ∧ (resultRecord (update_inventory twoLotDB (wdraw 8))).map (fun rec => rec.lot_id) = some none
    ∧ (∀ (db : DB) (r : InventoryRecordCreate) (e : ApiError),
        update_inventory db r = Except.error e → e = ApiError.itemNotFound)
    ∧ resultRemainders (create_inventory_record_with_lot twoLotDB (wdraw 8)) = some [0, 7] := by
  refine ⟨?_, ?_, ?_, ?_⟩
  · norm_num [update_inventory, create_inventory_record, get_item, resultRemainders, twoLotDB, wdraw]
  · norm_num [update_inventory, create_inventory_record, get_item, resultRecord, twoLotDB, wdraw]
  · intro db r e herr
    unfold update_inventory create_inventory_record at herr
    cases hgi : get_item db r.item_id with
    | none => rw [hgi] at herr; cases herr; rfl
    | some it => rw [hgi] at herr; cases herr
  · norm_num [create_inventory_record_with_lot, get_item, get_available_lots, lotBelongsToItem,
      lotIdLe, allocWalk, setLotRemaining, resultRemainders, twoLotDB, wdraw, pythonIntTruthy,
      List.insertionSort, List.orderedInsert]

/-- C5: a successful operation naming a truthy explicit lot deducts the
absolute quantity from that lot whatever the sign of the delta, leaves
every other lot in place, and appends a single record carrying the
signed quantity and that lot reference. -/
theorem c5_explicit_lot_deduction (db : DB) (r : InventoryRecordCreate) (it : Item) (lot : Lot)
    (hgi : get_item db r.item_id = some it)
    (htr : pythonIntTruthy r.lot_id = true)
    (hfind : db.lots.find? (fun l => l.id == r.lot_id.getD 0) = some lot)
    (hq : |r.quantity| ≤ lot.remaining_quantity) :
    ∃ db' rec, create_inventory_record_with_lot db r = Except.ok (db', rec)
      ∧ rec.quantity = r.quantity
      ∧ rec.lot_id = r.lot_id
      ∧ db'.records = db.records ++ [rec]
      ∧ db'.lots = setLotRemaining db.lots lot.id (lot.remaining_quantity - |r.quantity|)
      ∧ ∀ l ∈ db.lots, l.id ≠ lot.id → l ∈ db'.lots := by
  have hnlt : ¬(lot.remaining_quantity < |r.quantity|) := not_lt.mpr hq
  have hop : create_inventory_record_with_lot db r = Except.ok
      ({ db with
          lots := setLotRemaining db.lots lot.id (lot.remaining_quantity - |r.quantity|)
          records := db.records ++ [{ id := db.nextRecordId, item_id := r.item_id, lot_id := r.lot_id, quantity := r.quantity, updated_by := r.updated_by }]
          nextRecordId := db.nextRecordId + 1 },
        { id := db.nextRecordId, item_id := r.item_id, lot_id := r.lot_id, quantity := r.quantity, updated_by := r.updated_by }) := by
    unfold create_inventory_record_with_lot
    rw [hgi, htr]
    simp only [if_true, hfind, if_neg hnlt]
  exact ⟨_, _, hop, rfl, rfl, rfl, rfl, fun l hl hne => setLotRemaining_mem_of_ne hl hne⟩

/-- Witness for C5 with a positive delta: adding 3 with an explicit
reference to L1 still deducts 3 from L1. -/
theorem c5_explicit_lot_deduction_witness :
    ∃ db' rec, create_inventory_record_with_lot twoLotDB
        { item_id := 1, quantity := 3, updated_by := "u", lot_id := some 1 } = Except.ok (db', rec)
      ∧ rec.quantity = ({ item_id := 1, quantity := 3, updated_by := "u", lot_id := some 1 } : InventoryRecordCreate).quantity
      ∧ rec.lot_id = ({ item_id := 1, quantity := 3, updated_by := "u", lot_id := some 1 } : InventoryRecordCreate).lot_id
      ∧ db'.records = twoLotDB.records ++ [rec]
      ∧ db'.lots = setLotRemaining twoLotDB.lots 1 (5 - |(3:ℚ)|)
      ∧ ∀ l ∈ twoLotDB.lots, l.id ≠ 1 → l ∈ db'.lots := by
  have h := c5_explicit_lot_deduction twoLotDB
    { item_id := 1, quantity := 3, updated_by := "u", lot_id := some 1 }
    { id := 1, name := "widget" }
    { id := 1, purchase_id := 1, lot_number := "L1", manufacturing_date := none, expiry_date := none, remaining_quantity := 5 }
    (by norm_num [get_item, twoLotDB])
    (by norm_num [pythonIntTruthy])
    (by norm_num [twoLotDB, List.find?])
    (by norm_num)
  exact h

/-- C6 (amended): with a truthy explicit lot id, a missing lot id fails
with `lotNotFound`, and a lot whose remaining quantity cannot cover
`|quantity|` fails with `insufficientLotQuantity` carrying the
available amount while the persisted state, lots included, is
unchanged.  The lookup is by lot id alone — membership of the lot in
the item's purchase history is not checked. -/
theorem c6_explicit_lot_errors (db : DB) (r : InventoryRecordCreate) (it : Item)
    (hgi : get_item db r.item_id = some it) (htr : pythonIntTruthy r.lot_id = true) :
    (db.lots.find? (fun l => l.id == r.lot_id.getD 0) = none →
      create_inventory_record_with_lot db r = Except.error ApiError.lotNotFound)
    ∧ (∀ lot, db.lots.find? (fun l => l.id == r.lot_id.getD 0) = some lot →
        lot.remaining_quantity < |r.quantity| →
        create_inventory_record_with_lot db r = Except.error (ApiError.insufficientLotQuantity lot.remaining_quantity)
        ∧ persistedDB db r = db
        ∧ (persistedDB db r).lots = db.lots) := by
  constructor
  · intro hfind
    unfold create_inventory_record_with_lot
    rw [hgi, htr]
    simp only [if_true, hfind]
  · intro lot hfind hlt
    have herr : create_inventory_record_with_lot db r
        = Except.error (ApiError.insufficientLotQuantity lot.remaining_quantity) := by
      unfold create_inventory_record_with_lot
      rw [hgi, htr]
      simp only [if_true, hfind, if_pos hlt]
    refine ⟨herr, ?_, ?_⟩
    · unfold persistedDB
      rw [herr]
    · unfold persistedDB
      rw [herr]

/-- State with two items where the only lot belongs to item 2's
purchase history. -/
def c6DB : DB :=
  { items := [{ id := 1, name := "a" }, { id := 2, name := "b" }]
    purchases :=
      [ { id := 1, item_id := 2, quantity := 5, purchase_type := PurchaseType.imported, supplier := "s", price_per_unit := 1, created_by := "u" } ]
    lots :=
      [ { id := 1, purchase_id := 1, lot_number := "L1", manufacturing_date := none, expiry_date := none, remaining_quantity := 5 } ]
    records := []
    nextPurchaseId := 2
    nextLotId := 2
    nextRecordId := 1 }

/-- Withdrawal of 2 units of item 1 naming item 2's lot explicitly. -/
def c6Rec : InventoryRecordCreate :=
  { item_id := 1, quantity := -2, updated_by := "u", lot_id := some 1 }

/-- Counterexample for C6 as claimed: lot 1 does not belong to item 1's
purchase history, yet the operation does not fail with `lotNotFound` —
it succeeds and deducts from the other item's lot. -/
theorem c6_counterexample :
    lotBelongsToItem c6DB 1 { id := 1, purchase_id := 1, lot_number := "L1", manufacturing_date := none, expiry_date := none, remaining_quantity := 5 } = false
    ∧ create_inventory_record_with_lot c6DB c6Rec ≠ Except.error ApiError.lotNotFound
    ∧ resultRemainders (create_inventory_record_with_lot c6DB c6Rec) = some [3] := by
  have hval : resultRemainders (create_inventory_record_with_lot c6DB c6Rec) = some [3] := by
    norm_num [create_inventory_record_with_lot, get_item, setLotRemaining, resultRemainders,
      c6DB, c6Rec, pythonIntTruthy, List.find?]
  refine ⟨by norm_num [lotBelongsToItem, c6DB, List.find?], ?_, hval⟩
  intro h
  rw [h] at hval
  simp [resultRemainders] at hval

/-- Witness for C6 (amended) at a missing lot id and at an explicit-lot
withdrawal exceeding L1's 5 remaining units. -/
theorem c6_explicit_lot_errors_witness :
    create_inventory_record_with_lot twoLotDB { item_id := 1, quantity := -1, updated_by := "u", lot_id := some 99 }
      = Except.error ApiError.lotNotFound
    ∧ (create_inventory_record_with_lot twoLotDB { item_id := 1, quantity := -7, updated_by := "u", lot_id := some 1 }
        = Except.error (ApiError.insufficientLotQuantity 5)
       ∧ persistedDB twoLotDB { item_id := 1, quantity := -7, updated_by := "u", lot_id := some 1 } = twoLotDB
       ∧ (persistedDB twoLotDB { item_id := 1, quantity := -7, updated_by := "u", lot_id := some 1 }).lots = twoLotDB.lots) := by
  constructor
  · exact (c6_explicit_lot_errors twoLotDB
      { item_id := 1, quantity := -1, updated_by := "u", lot_id := some 99 }
      { id := 1, name := "widget" }
      (by norm_num [get_item, twoLotDB]) (by norm_num [pythonIntTruthy])).1
      (by decide)
  · exact (c6_explicit_lot_errors twoLotDB
      { item_id := 1, quantity := -7, updated_by := "u", lot_id := some 1 }
      { id := 1, name := "widget" }
      (by norm_num [get_item, twoLotDB]) (by norm_num [pythonIntTruthy])).2
      { id := 1, purchase_id := 1, lot_number := "L1", manufacturing_date := none, expiry_date := none, remaining_quantity := 5 }
      (by decide) (by norm_num)

/-- State with one item and no lots, for reaching a negative lot
through a purchase. -/
def c7DB : DB :=
  { items := [{ id := 1, name := "widget" }]
    purchases := []
    lots := []
    records := []
    nextPurchaseId := 1
    nextLotId := 1
    nextRecordId := 1 }

/-- Imported purchase of quantity -1 (accepted by the schema, which
places no bound on the quantity). -/
def c7Purchase : PurchaseCreate :=
  { item_id := 1, quantity := -1, purchase_type := PurchaseType.imported, supplier := "s",
    price_per_unit := 1, created_by := "u", lot_number := none, manufacturing_date := none, expiry_date := none }

/-- Counterexample for C7 as claimed: one public purchase call creates
a lot whose remaining quantity is negative from the start. -/
theorem c7_counterexample :
    purchaseLots (create_purchase c7DB c7Purchase) = some [-1]
    ∧ ((-1 : ℚ) < 0) := by
  constructor
  · norm_num [create_purchase, get_item, purchaseLots, c7DB, c7Purchase, pythonStrTruthy]
  · norm_num

/-- C7 (amended): starting from a state whose lots are all nonnegative,
the lot-aware inventory operation, the plain inventory operation and
any purchase of nonnegative quantity keep every lot's remaining
quantity nonnegative; the bound can only be broken by a purchase whose
quantity is itself negative. -/
theorem c7_nonneg_preservation (db : DB) (hnn : ∀ l ∈ db.lots, 0 ≤ l.remaining_quantity) :
    (∀ (r : InventoryRecordCreate) (db' : DB) (rec : InventoryRecord),
       create_inventory_record_with_lot db r = Except.ok (db', rec) →
       ∀ l ∈ db'.lots, 0 ≤ l.remaining_quantity)
    ∧ (∀ (r : InventoryRecordCreate) (db' : DB) (rec : InventoryRecord),
       create_inventory_record db r = Except.ok (db', rec) →
       ∀ l ∈ db'.lots, 0 ≤ l.remaining_quantity)
    ∧ (∀ (p : PurchaseCreate) (db' : DB) (pu : Purchase), 0 ≤ p.quantity →
       create_purchase db p = Except.ok (db', pu) →
       ∀ l ∈ db'.lots, 0 ≤ l.remaining_quantity) := by
  refine ⟨?_, ?_, ?_⟩
  · intro r db' rec hok
    unfold create_inventory_record_with_lot at hok
    cases hgi : get_item db r.item_id with
    | none => rw [hgi] at hok; cases hok
    | some it =>
      rw [hgi] at hok
      cases htr : pythonIntTruthy r.lot_id with
      | true =>
        rw [htr] at hok
        simp only [if_true] at hok
        cases hfind : db.lots.find? (fun l => l.id == r.lot_id.getD 0) with
        | none => rw [hfind] at hok; cases hok
        | some lot =>
          simp only [hfind] at hok
          by_cases hlt : lot.remaining_quantity < |r.quantity|
          · rw [if_pos hlt] at hok; cases hok
          · rw [if_neg hlt] at hok
            simp only [Except.ok.injEq, Prod.mk.injEq] at hok
            obtain ⟨hdb, -⟩ := hok
            subst hdb
            exact setLotRemaining_nonneg hnn (sub_nonneg.mpr (not_lt.mp hlt))
      | false =>
        rw [htr] at hok
        simp only [Bool.false_eq_true, if_false] at hok
        by_cases hneg : r.quantity < 0
        · rw [if_pos hneg] at hok
          by_cases hw : 0 < (allocWalk db.lots (get_available_lots db r.item_id true) |r.quantity|).2.1
          · rw [if_pos hw] at hok; cases hok
          · rw [if_neg hw] at hok
            simp only [Except.ok.injEq, Prod.mk.injEq] at hok
            obtain ⟨hdb, -⟩ := hok
            subst hdb
            exact allocWalk_lots_nonneg _ _ _ hnn
        · rw [if_neg hneg] at hok; cases hok
  · intro r db' rec hok
    unfold create_inventory_record at hok
    cases hgi : get_item db r.item_id with
    | none => rw [hgi] at hok; cases hok
    | some it =>
      rw [hgi] at hok
      simp only [Except.ok.injEq, Prod.mk.injEq] at hok
      obtain ⟨hdb, -⟩ := hok
      subst hdb
      exact hnn
  · intro p db' pu hq hok
    unfold create_purchase at hok
    cases hgi : get_item db p.item_id with
    | none => rw [hgi] at hok; cases hok
    | some it =>
      rw [hgi] at hok
      by_cases hcond : (p.purchase_type = PurchaseType.imported ∨ pythonStrTruthy p.lot_number = true)
      · rw [if_pos hcond] at hok
        simp only [Except.ok.injEq, Prod.mk.injEq] at hok
        obtain ⟨hdb, -⟩ := hok
        subst hdb
        intro l hl
        rcases List.mem_append.mp hl with h | h
        · exact hnn l h
        · rw [List.mem_singleton] at h
          subst h
          exact hq
      · rw [if_neg hcond] at hok
        simp only [Except.ok.injEq, Prod.mk.injEq] at hok
        obtain ⟨hdb, -⟩ := hok
        subst hdb
        exact hnn

/-- Witness for C7 (amended): after the two-lot withdrawal of 8, the
second lot of the produced state still has nonnegative remaining
quantity. -/
theorem c7_nonneg_preservation_witness :
    (0:ℚ) ≤ ({ id := 2, purchase_id := 2, lot_number := "L2", manufacturing_date := none, expiry_date := none, remaining_quantity := 7 } : Lot).remaining_quantity := by
  have h := (c7_nonneg_preservation twoLotDB (by decide)).1 (wdraw 8) c2WitnessDB c2WitnessRec
    (by norm_num [create_inventory_record_with_lot, get_item, get_available_lots, lotBelongsToItem,
      lotIdLe, allocWalk, setLotRemaining, twoLotDB, wdraw, pythonIntTruthy, c2WitnessDB,
      c2WitnessRec, List.insertionSort, List.orderedInsert])
  exact h _ (by decide)

/-- C8: purchase creation fails with `itemNotFound` for a missing item;
otherwise it appends the purchase, appends no journal entry, and
creates exactly one lot — seeded with the purchase quantity and
defaulting its lot number to `"LOT-" ++ purchase id` when none is
supplied — precisely when the type is imported or a truthy lot number
was supplied, leaving the lots table unchanged otherwise. -/
theorem c8_create_purchase (db : DB) (p : PurchaseCreate) :
    (get_item db p.item_id = none → create_purchase db p = Except.error ApiError.itemNotFound)
    ∧ (∀ it, get_item db p.item_id = some it →
        ∃ db' pu, create_purchase db p = Except.ok (db', pu)
          ∧ pu.item_id = p.item_id
          ∧ pu.quantity = p.quantity
          ∧ pu.purchase_type = p.purchase_type
          ∧ db'.purchases = db.purchases ++ [pu]
          ∧ db'.records = db.records
          ∧ ((p.purchase_type = PurchaseType.imported ∨ pythonStrTruthy p.lot_number = true) →
              ∃ lot, db'.lots = db.lots ++ [lot]
                ∧ lot.remaining_quantity = p.quantity
                ∧ lot.purchase_id = pu.id
                ∧ (pythonStrTruthy p.lot_number = false → lot.lot_number = "LOT-" ++ toString pu.id))
          ∧ (¬(p.purchase_type = PurchaseType.imported ∨ pythonStrTruthy p.lot_number = true) → db'.lots = db.lots)) := by
  constructor
  · intro hgi
    unfold create_purchase
    rw [hgi]
  · intro it hgi
    by_cases hcond : (p.purchase_type = PurchaseType.imported ∨ pythonStrTruthy p.lot_number = true)
    · have hop : create_purchase db p = Except.ok
          ({ db with
              purchases := db.purchases ++ [{ id := db.nextPurchaseId, item_id := p.item_id, quantity := p.quantity, purchase_type := p.purchase_type, supplier := p.supplier, price_per_unit := p.price_per_unit, created_by := p.created_by }]
              nextPurchaseId := db.nextPurchaseId + 1
              lots := db.lots ++ [{ id := db.nextLotId, purchase_id := db.nextPurchaseId, lot_number := if pythonStrTruthy p.lot_number then p.lot_number.getD "" else "LOT-" ++ toString db.nextPurchaseId, manufacturing_date := p.manufacturing_date, expiry_date := p.expiry_date, remaining_quantity := p.quantity }]
              nextLotId := db.nextLotId + 1 },
            { id := db.nextPurchaseId, item_id := p.item_id, quantity := p.quantity, purchase_type := p.purchase_type, supplier := p.supplier, price_per_unit := p.price_per_unit, created_by := p.created_by }) := by
        unfold create_purchase
        rw [hgi]
        simp only [if_pos hcond]
      refine ⟨_, _, hop, rfl, rfl, rfl, rfl, rfl, ?_, fun hn => absurd hcond hn⟩
      intro _
      refine ⟨_, rfl, rfl, rfl, ?_⟩
      intro hf
      simp only [hf, Bool.false_eq_true, if_false]
    · have hop : create_purchase db p = Except.ok
          ({ db with
              purchases := db.purchases ++ [{ id := db.nextPurchaseId, item_id := p.item_id, quantity := p.quantity, purchase_type := p.purchase_type, supplier := p.supplier, price_per_unit := p.price_per_unit, created_by := p.created_by }]
              nextPurchaseId := db.nextPurchaseId + 1 },
            { id := db.nextPurchaseId, item_id := p.item_id, quantity := p.quantity, purchase_type := p.purchase_type, supplier := p.supplier, price_per_unit := p.price_per_unit, created_by := p.created_by }) := by
        unfold create_purchase
        rw [hgi]
        simp only [if_neg hcond]
      exact ⟨_, _, hop, rfl, rfl, rfl, rfl, rfl, fun hc => absurd hc hcond, fun _ => rfl⟩

/-- Imported purchase of quantity 4 with no lot number supplied. -/
def c8Purchase : PurchaseCreate :=
  { item_id := 1, quantity := 4, purchase_type := PurchaseType.imported, supplier := "s",
    price_per_unit := 1, created_by := "u", lot_number := none, manufacturing_date := none, expiry_date := none }

/-- Witness for C8 at an imported purchase on the one-item state. -/
theorem c8_create_purchase_witness :
    ∃ db' pu, create_purchase c7DB c8Purchase = Except.ok (db', pu)
      ∧ pu.item_id = c8Purchase.item_id
      ∧ pu.quantity = c8Purchase.quantity
      ∧ pu.purchase_type = c8Purchase.purchase_type
      ∧ db'.purchases = c7DB.purchases ++ [pu]
      ∧ db'.records = c7DB.records
      ∧ ((c8Purchase.purchase_type = PurchaseType.imported ∨ pythonStrTruthy c8Purchase.lot_number = true) →
          ∃ lot, db'.lots = c7DB.lots ++ [lot]
            ∧ lot.remaining_quantity = c8Purchase.quantity
            ∧ lot.purchase_id = pu.id
            ∧ (pythonStrTruthy c8Purchase.lot_number = false → lot.lot_number = "LOT-" ++ toString pu.id))
      ∧ (¬(c8Purchase.purchase_type = PurchaseType.imported ∨ pythonStrTruthy c8Purchase.lot_number = true) → db'.lots = c7DB.lots) :=
  (c8_create_purchase c7DB c8Purchase).2 { id := 1, name := "widget" } (by decide)

/-- State whose only lot belongs to item 2, while item 1 is absent. -/
def c9DB : DB :=
  { items := [{ id := 2, name := "other" }]
    purchases :=
      [ { id := 1, item_id := 2, quantity := 5, purchase_type := PurchaseType.imported, supplier := "s", price_per_unit := 1, created_by := "u" } ]
    lots :=
      [ { id := 1, purchase_id := 1, lot_number := "L1", manufacturing_date := none, expiry_date := none, remaining_quantity := 5 } ]
    records := []
    nextPurchaseId := 2
    nextLotId := 2
    nextRecordId := 1 }

/-- Counterexample for C9 as claimed: item 1 does not exist, yet the
lot listing returns normally with the empty sequence — no
`itemNotFound` failure exists on this path, whose return type carries
no error alternative. -/
theorem c9_counterexample :
    get_item c9DB 1 = none
    ∧ read_item_lots c9DB 1 true = []
    ∧ read_item_lots c9DB 2 true ≠ [] := by
  refine ⟨by decide, by decide, by decide⟩

/-- C9 (amended): the available-lots listing returns exactly the lots
joined to the item with positive remaining quantity, sorted by lot id
ascending, and the exposed handler forwards to it unconditionally —
without an item-existence check. -/
theorem c9_available_lots_spec (db : DB) (item_id : Nat) :
    (∀ l : Lot, l ∈ get_available_lots db item_id true ↔
        l ∈ db.lots ∧ lotBelongsToItem db item_id l = true ∧ 0 < l.remaining_quantity)
    ∧ List.Sorted lotIdLe (get_available_lots db item_id true)
    ∧ (∀ l ∈ get_available_lots db item_id true, 0 < l.remaining_quantity)
    ∧ read_item_lots db item_id true = get_available_lots db item_id true :=
  ⟨fun _ => mem_get_available_lots, sorted_get_available_lots db item_id true,
   fun _ hl => (mem_get_available_lots.mp hl).2.2, rfl⟩

/-- Witness for C9 (amended) on the two-lot state: L1 is listed. -/
theorem c9_available_lots_spec_witness :
    ({ id := 1, purchase_id := 1, lot_number := "L1", manufacturing_date := none, expiry_date := none, remaining_quantity := 5 } : Lot) ∈ get_available_lots twoLotDB 1 true :=
  ((c9_available_lots_spec twoLotDB 1).1 _).mpr (by refine ⟨by decide, by decide, by norm_num⟩)

/-- C10: purchase creation places no lower bound on the quantity — for
an existing item and imported type, any rational quantity is accepted
and the created lot's remaining quantity is exactly that value. -/
theorem c10_unbounded_quantity (db : DB) (p : PurchaseCreate) (it : Item)
    (hgi : get_item db p.item_id = some it) (himp : p.purchase_type = PurchaseType.imported) :
    ∃ db' pu lot, create_purchase db p = Except.ok (db', pu)
      ∧ pu.quantity = p.quantity
      ∧ db'.lots = db.lots ++ [lot]
      ∧ lot.remaining_quantity = p.quantity := by
  have hcond : p.purchase_type = PurchaseType.imported ∨ pythonStrTruthy p.lot_number = true :=
    Or.inl himp
  have hop : create_purchase db p = Except.ok
      ({ db with
          purchases := db.purchases ++ [{ id := db.nextPurchaseId, item_id := p.item_id, quantity := p.quantity, purchase_type := p.purchase_type, supplier := p.supplier, price_per_unit := p.price_per_unit, created_by := p.created_by }]
          nextPurchaseId := db.nextPurchaseId + 1
          lots := db.lots ++ [{ id := db.nextLotId, purchase_id := db.nextPurchaseId, lot_number := if pythonStrTruthy p.lot_number then p.lot_number.getD "" else "LOT-" ++ toString db.nextPurchaseId, manufacturing_date := p.manufacturing_date, expiry_date := p.expiry_date, remaining_quantity := p.quantity }]
          nextLotId := db.nextLotId + 1 },
        { id := db.nextPurchaseId, item_id := p.item_id, quantity := p.quantity, purchase_type := p.purchase_type, supplier := p.supplier, price_per_unit := p.price_per_unit, created_by := p.created_by }) := by
    unfold create_purchase
    rw [hgi]
    simp only [if_pos hcond]
  exact ⟨_, _, _, hop, rfl, rfl, rfl⟩

/-- Imported purchase of quantity -5, reaching a negative lot through
the public purchase interface. -/
def c10Purchase : PurchaseCreate :=
  { item_id := 1, quantity := -5, purchase_type := PurchaseType.imported, supplier := "s",
    price_per_unit := 1, created_by := "u", lot_number := none, manufacturing_date := none, expiry_date := none }

/-- Witness for C10 at quantity -5: the purchase succeeds and seeds the
lot with remaining quantity -5 ≤ 0. -/
theorem c10_unbounded_quantity_witness :
    ∃ db' pu lot, create_purchase c7DB c10Purchase = Except.ok (db', pu)
      ∧ pu.quantity = c10Purchase.quantity
      ∧ db'.lots = c7DB.lots ++ [lot]
      ∧ lot.remaining_quantity = c10Purchase.quantity :=
  c10_unbounded_quantity c7DB c10Purchase { id := 1, name := "widget" }
    (by decide) rfl
